import Mathlib

/-!
Shallow embedding of the Windows platform-services layer of the installer
(source file src/Rust/src/windows/util.rs) together with theorems settling
the specification claims about it.

OS facilities (Win32 calls, the process API, environment expansion, path
canonicalization) are external to the source file; they are embedded as
explicit oracle parameters, and pure executable models of the documented
OS behaviour are provided so that every theorem can be evaluated on
concrete inputs.
-/

namespace Velopack

/-- Error code carried by a failing OS call (the payload of an io or Win32 error). -/
structure OsErr where
  code : Nat
  deriving DecidableEq, Repr

/-- CPU architecture values recognised by the installer (shared::runtime_arch::RuntimeArch).
RuntimeArch::from_current_system and RuntimeArch::from_str both return an Option of this. -/
inductive RuntimeArch where
  | X86
  | X64
  | Arm64
  deriving DecidableEq, Repr, BEq

/-- The comparison condition attached to one field of a Windows version mask (co::VER_COND). -/
inductive VerCond where
  | equal
  | greater
  | greaterEqual
  | less
  | lessEqual
  deriving DecidableEq, Repr

/-- The three version-mask fields the source manipulates (co::VER_MASK). -/
inductive VerField where
  | majorVersion
  | minorVersion
  | buildNumber
  deriving DecidableEq, Repr

/-- A condition mask as built by repeated w::VerSetConditionMask calls: for each of the three
fields used by the source, the condition installed so far (none when not yet set, mirroring the
zero mask the source starts from). -/
structure ConditionMask where
  majorCond : Option VerCond
  minorCond : Option VerCond
  buildCond : Option VerCond
  deriving DecidableEq, Repr

/-- The zero mask (the source initialises mask to the u64 zero). -/
def emptyMask : ConditionMask := ⟨none, none, none⟩

/-- Model of w::VerSetConditionMask: installs condition c for field f in mask m. -/
def verSetConditionMask (m : ConditionMask) (f : VerField) (c : VerCond) : ConditionMask :=
  match f with
  | .majorVersion => { m with majorCond := some c }
  | .minorVersion => { m with minorCond := some c }
  | .buildNumber => { m with buildCond := some c }

/-- The fields of w::OSVERSIONINFOEX that the source sets before calling VerifyVersionInfo. -/
structure OsVersionInfo where
  dwMajorVersion : Nat
  dwMinorVersion : Nat
  dwBuildNumber : Nat
  deriving DecidableEq, Repr

/-- The host version-query facilities invoked by is_os_version_or_greater.  Each is an OS call
that can fail, so each is an Except value (respectively function). -/
structure VersionApi where
  isWindows7OrGreater : Except OsErr Bool
  isWindows8OrGreater : Except OsErr Bool
  isWindows8Point1OrGreater : Except OsErr Bool
  isWindows10OrGreater : Except OsErr Bool
  verifyVersionInfo : OsVersionInfo → ConditionMask → Except OsErr Bool

/-- Shallow embedding of is_os_version_or_greater (util.rs lines 180 to 214), applied to the
(major, minor, build) triple that shared::parse_version produced from the version string.
The source first returns on major below 8 and on major equal 8, then remaps major 11 to
major 10, minor 0 with the build clamped up to 22000, then returns the build-insensitive
Windows 10 check when major is 10 and no build was given, and otherwise performs the
VerifyVersionInfo comparison with a GREATER_EQUAL condition on each of the three fields. -/
def is_os_version_or_greater (api : VersionApi) (major minor build : Nat) : Except OsErr Bool :=
  if major < 8 then api.isWindows7OrGreater
  else if major == 8 then
    (if minor >= 1 then api.isWindows8Point1OrGreater else api.isWindows8OrGreater)
  else
    match (if major == 11 then (10, 0, if build < 22000 then 22000 else build) else (major, minor, build) : Nat × Nat × Nat) with
    | (major, minor, build) =>
      if major == 10 && build <= 0 then api.isWindows10OrGreater
      else
        api.verifyVersionInfo ⟨major, minor, build⟩
          (verSetConditionMask (verSetConditionMask (verSetConditionMask emptyMask .majorVersion .greaterEqual) .minorVersion .greaterEqual) .buildNumber .greaterEqual)

/-- Shallow embedding of is_cpu_architecture_supported (util.rs lines 298 to 328).  The machine
argument is the result of RuntimeArch::from_current_system, the architecture argument the result
of RuntimeArch::from_str on the package descriptor string (none when the string is not a
recognised architecture), and win11Query models the is_os_version_or_greater call on the
string 11, which the source performs after unwrapping both options and before the matrix. -/
def is_cpu_architecture_supported (machine : Option RuntimeArch) (architecture : Option RuntimeArch)
    (win11Query : Except OsErr Bool) : Except OsErr Bool :=
  match machine with
  | none => .ok true
  | some machine =>
    match architecture with
    | none => .ok true
    | some architecture =>
      match win11Query with
      | .error e => .error e
      | .ok is_win_11 =>
        if machine == RuntimeArch.X86 then
          .ok (architecture == RuntimeArch.X86)
        else if machine == RuntimeArch.X64 then
          .ok (architecture == RuntimeArch.X86 || architecture == RuntimeArch.X64)
        else if machine == RuntimeArch.Arm64 then
          .ok (architecture == RuntimeArch.X86 || (architecture == RuntimeArch.X64 && is_win_11) || architecture == RuntimeArch.Arm64)
        else
          .ok true

/-- The compatibility matrix exactly as the specification words it, including the two optimistic
unknown rows.  Refinement target for claim C3; written from the claim, to be compared with the
source embedding is_cpu_architecture_supported. -/
def spec_arch_matrix : Option RuntimeArch → Option RuntimeArch → Bool → Bool
  | none, _, _ => true
  | some _, none, _ => true
  | some .X86, some p, _ => p == RuntimeArch.X86
  | some .X64, some p, _ => p == RuntimeArch.X86 || p == RuntimeArch.X64
  | some .Arm64, some p, win11 => p == RuntimeArch.X86 || p == RuntimeArch.Arm64 || (p == RuntimeArch.X64 && win11)

/-- C3: when the OS version query for the string 11 succeeds with value w,
is_cpu_architecture_supported returns true for an unknown machine architecture, true for an
unknown package architecture, and otherwise exactly the matrix of the specification: machine
x86 supports only package x86; machine x64 supports x86 and x64 but not arm64; machine arm64
supports x86 and arm64 unconditionally and x64 exactly when w holds. -/
theorem c3_architecture_matrix (machine pkg : Option RuntimeArch) (q : Except OsErr Bool) (w : Bool)
    (hq : q = .ok w) :
    is_cpu_architecture_supported machine pkg q = .ok (spec_arch_matrix machine pkg w) := by
  subst hq
  cases machine with
  | none => rfl
  | some m =>
    cases pkg with
    | none => cases m <;> rfl
    | some p => cases m <;> cases p <;> cases w <;> rfl

/-- Witness for C3: evaluates the theorem at the arm64 machine with an x64 package on a host
whose Windows 11 query succeeds with true. -/
theorem c3_architecture_matrix_witness :
    is_cpu_architecture_supported (some RuntimeArch.Arm64) (some RuntimeArch.X64) (Except.ok true)
      = Except.ok (spec_arch_matrix (some RuntimeArch.Arm64) (some RuntimeArch.X64) true) :=
  c3_architecture_matrix (some RuntimeArch.Arm64) (some RuntimeArch.X64) (Except.ok true) true rfl

/-- C10: whenever both the machine and the package architecture are recognised, the Windows 11
version query is performed before any matrix cell is evaluated, so a failing query propagates
its error for every such pair, including the x86 and x64 machines whose matrix rows do not
depend on the OS version. -/
theorem c10_version_query_error_propagates (m p : RuntimeArch) (e : OsErr) :
    is_cpu_architecture_supported (some m) (some p) (.error e) = .error e := rfl

/-- C4: for a version string parsing with major component 11 (arbitrary minor and build), the
query is remapped to major 10, minor 0 with the build clamped up to at least 22000 (a build
below 22000 becomes exactly 22000) and then handed to the generic VerifyVersionInfo comparison
with a greater-or-equal condition installed on each of major, minor and build. -/
theorem c4_windows11_remap (api : VersionApi) (minor build : Nat) :
    is_os_version_or_greater api 11 minor build
      = api.verifyVersionInfo ⟨10, 0, if build < 22000 then 22000 else build⟩
          ⟨some VerCond.greaterEqual, some VerCond.greaterEqual, some VerCond.greaterEqual⟩ := by
  by_cases h : build < 22000
  · simp [is_os_version_or_greater, h, verSetConditionMask, emptyMask]
  · simp only [is_os_version_or_greater, if_neg h]
    have hb : ¬ build <= 0 := by omega
    simp [hb, verSetConditionMask, emptyMask]

deriving instance DecidableEq for Except

/-- The thread last-error value the source inspects with GetLastError right after the
CreateMutexW call. -/
inductive WinLastError where
  | success
  | alreadyExists
  | other (code : Nat)
  deriving DecidableEq, Repr

/-- The two OS observations create_global_mutex makes: the result of the CreateMutexW call
(an error, or a fresh handle identified by a number) and the last-error value after it. -/
structure MutexApi where
  createMutexResult : Except Nat Nat
  lastError : WinLastError
  deriving DecidableEq, Repr

/-- The guard returned on success; it owns the handle.  In the source, CloseHandle on that
handle is invoked only by the Drop implementation of this guard, i.e. outside
create_global_mutex, when the returned guard later goes out of scope. -/
structure MutexDropGuard where
  mutex : Nat
  deriving DecidableEq, Repr

/-- The error outcomes of create_global_mutex, mirroring its three anyhow errors: the
CreateMutexW call itself failed, the mutex already existed (another instance is running), or
GetLastError reported some other code. -/
inductive MutexErr where
  | createFailed (code : Nat)
  | alreadyRunning
  | unableToCreate (e : WinLastError)
  deriving DecidableEq, Repr

/-- Shallow embedding of create_global_mutex (util.rs lines 51 to 62).  The second component
records every handle on which the function body itself invokes CloseHandle before returning;
the source body contains no CloseHandle call at all (closing happens only in the guard drop
code), so that list is empty on every path. -/
def create_global_mutex (api : MutexApi) : Except MutexErr MutexDropGuard × List Nat :=
  match api.createMutexResult with
  | .error c => (.error (.createFailed c), [])
  | .ok mutex =>
    match api.lastError with
    | .success => (.ok ⟨mutex⟩, [])
    | .alreadyExists => (.error .alreadyRunning, [])
    | .other c => (.error (.unableToCreate (.other c)), [])

/-- The CREATE_NO_WINDOW process-creation flag used by the source for console suppression. -/
def CREATE_NO_WINDOW : Nat := 0x08000000

/-- The configuration a std::process::Command builder chain has accumulated at the moment of
spawn: program, discrete arguments, optional raw argument string, working directory, whether
stdout and stderr are piped, and the creation flags (0 when the builder never sets them). -/
structure CommandCfg where
  exe : String
  args : List String
  rawArg : Option String
  workDir : String
  stdoutPiped : Bool
  stderrPiped : Bool
  creationFlags : Nat
  deriving DecidableEq, Repr

/-- Exit status of a child process; on Windows this is an exit code, and success means the
code is zero. -/
structure ExitStatus where
  exitCode : Int
  deriving DecidableEq, Repr

/-- The process-API oracle: spawning yields a child id, waiting with a timeout yields none on
expiry, and the two captured streams can be read to the end as raw bytes.  Every call can
fail with an OS error. -/
structure ProcApi where
  spawn : CommandCfg → Except OsErr Nat
  waitTimeout : Nat → Nat → Except OsErr (Option ExitStatus)
  wait : Nat → Except OsErr ExitStatus
  kill : Nat → Except OsErr Unit
  readStdout : Nat → Except OsErr (List Nat)
  readStderr : Nat → Except OsErr (List Nat)

/-- The error outcomes of the process runner, mirroring the distinct anyhow errors of the
source: a propagated OS error, the timeout error carrying the timeout duration, and the
non-zero-exit error carrying exactly the exit code, the only datum the source formats into
that error. -/
inductive RunErr where
  | os (e : OsErr)
  | timedOut (t : Nat)
  | nonZeroExit (code : Int)
  deriving DecidableEq, Repr

/-- The message text of each runner error as the source formats it with anyhow.  The os case
stands for an io error whose display text is produced by the OS, outside the source. -/
def errMessage : RunErr → String
  | .os e => "os error " ++ toString e.code
  | .timedOut t => "Process timed out after " ++ toString t
  | .nonZeroExit code => "Process exited with non-zero exit code: " ++ toString code

/-- The warn log lines emitted by check_process_status_and_output. -/
inductive LogEvent where
  | warnNonZero (code : Int)
  | warnOutput (s : String)
  deriving DecidableEq, Repr

/-- Whether a byte is a UTF-8 continuation byte. -/
def contOk (b : Nat) : Bool := 0x80 <= b && b <= 0xBF

/-- Admissible range of the first continuation byte of a three-byte UTF-8 sequence, which
depends on the leading byte (tighter for 0xE0 and 0xED, excluding overlong forms and
surrogates). -/
def cont3Ok (lead c : Nat) : Bool :=
  if lead == 0xE0 then 0xA0 <= c && c <= 0xBF
  else if lead == 0xED then 0x80 <= c && c <= 0x9F
  else contOk c

/-- Admissible range of the first continuation byte of a four-byte UTF-8 sequence. -/
def cont4Ok (lead c : Nat) : Bool :=
  if lead == 0xF0 then 0x90 <= c && c <= 0xBF
  else if lead == 0xF4 then 0x80 <= c && c <= 0x8F
  else contOk c

/-- The Unicode replacement character U+FFFD. -/
def replChar : Char := Char.ofNat 0xFFFD

/-- Fuel-indexed worker of the lossy UTF-8 decoder modelling String::from_utf8_lossy: each
maximal subpart of an ill-formed sequence is replaced by one U+FFFD.  Every step consumes at
least one byte, so fuel equal to the input length suffices; the fuel keeps the recursion
structural so the kernel can evaluate it. -/
def utf8LossyAux : Nat → List Nat → List Char
  | 0, _ => []
  | _, [] => []
  | fuel + 1, b :: rest =>
    if b < 0x80 then Char.ofNat b :: utf8LossyAux fuel rest
    else if 0xC2 <= b && b <= 0xDF then
      match rest with
      | [] => [replChar]
      | c1 :: rest2 =>
        if contOk c1 then Char.ofNat ((b - 0xC0) * 64 + (c1 - 0x80)) :: utf8LossyAux fuel rest2
        else replChar :: utf8LossyAux fuel (c1 :: rest2)
    else if 0xE0 <= b && b <= 0xEF then
      match rest with
      | [] => [replChar]
      | [c1] =>
        if cont3Ok b c1 then [replChar]
        else replChar :: utf8LossyAux fuel [c1]
      | c1 :: c2 :: rest2 =>
        if cont3Ok b c1 then
          if contOk c2 then
            Char.ofNat ((b - 0xE0) * 4096 + (c1 - 0x80) * 64 + (c2 - 0x80)) :: utf8LossyAux fuel rest2
          else replChar :: utf8LossyAux fuel (c2 :: rest2)
        else replChar :: utf8LossyAux fuel (c1 :: c2 :: rest2)
    else if 0xF0 <= b && b <= 0xF4 then
      match rest with
      | [] => [replChar]
      | [c1] =>
        if cont4Ok b c1 then [replChar]
        else replChar :: utf8LossyAux fuel [c1]
      | [c1, c2] =>
        if cont4Ok b c1 then
          if contOk c2 then [replChar]
          else replChar :: utf8LossyAux fuel [c2]
        else replChar :: utf8LossyAux fuel [c1, c2]
      | c1 :: c2 :: c3 :: rest2 =>
        if cont4Ok b c1 then
          if contOk c2 then
            if contOk c3 then
              Char.ofNat ((b - 0xF0) * 262144 + (c1 - 0x80) * 4096 + (c2 - 0x80) * 64 + (c3 - 0x80))
                :: utf8LossyAux fuel rest2
            else replChar :: utf8LossyAux fuel (c3 :: rest2)
          else replChar :: utf8LossyAux fuel (c2 :: c3 :: rest2)
        else replChar :: utf8LossyAux fuel (c1 :: c2 :: c3 :: rest2)
    else replChar :: utf8LossyAux fuel rest

/-- Model of String::from_utf8_lossy: total, never fails, replaces ill-formed sequences. -/
def utf8Lossy (l : List Nat) : String := String.mk (utf8LossyAux l.length l)

/-- The Command builder chain of run_process_no_console_and_wait (util.rs lines 235 to 241):
arguments, working directory, both streams piped, and the CREATE_NO_WINDOW creation flag. -/
def run_process_no_console_cfg (exe : String) (args : List String) (workDir : String) : CommandCfg :=
  { exe := exe, args := args, rawArg := none, workDir := workDir,
    stdoutPiped := true, stderrPiped := true, creationFlags := CREATE_NO_WINDOW }

/-- The Command builder chain of run_process (util.rs line 283): arguments and working
directory only; the standard streams stay inherited and no creation flags are set. -/
def run_process_cfg (exe : String) (args : List String) (workDir : String) : CommandCfg :=
  { exe := exe, args := args, rawArg := none, workDir := workDir,
    stdoutPiped := false, stderrPiped := false, creationFlags := 0 }

/-- The Command builder chain of run_process_raw_args (util.rs line 293): a single raw
argument string and the working directory; streams inherited, no creation flags. -/
def run_process_raw_cfg (exe : String) (args : String) (workDir : String) : CommandCfg :=
  { exe := exe, args := [], rawArg := some args, workDir := workDir,
    stdoutPiped := false, stderrPiped := false, creationFlags := 0 }

/-- Shallow embedding of the nested check_process_status_and_output function (util.rs lines
245 to 261): read stdout to the end into a buffer, append stderr to the same buffer, then on
a non-zero status warn with the code, warn with the lossily decoded buffer when it is
non-empty, and return the non-zero-exit error carrying the code; on a zero status return the
lossily decoded buffer.  First component is the returned value, second the warn log. -/
def check_process_status_and_output (api : ProcApi) (child : Nat) (status : ExitStatus) :
    Except RunErr String × List LogEvent :=
  match api.readStdout child with
  | .error e => (.error (.os e), [])
  | .ok outBytes =>
    match api.readStderr child with
    | .error e => (.error (.os e), [])
    | .ok errBytes =>
      let buf := outBytes ++ errBytes
      if status.exitCode == 0 then
        (.ok (utf8Lossy buf), [])
      else
        (.error (.nonZeroExit status.exitCode),
          [LogEvent.warnNonZero status.exitCode]
            ++ (if buf.length > 0 then [LogEvent.warnOutput (utf8Lossy buf)] else []))

/-- Full outcome of run_process_no_console_and_wait: the returned value, the warn log, and
the children on which a kill call succeeded before the function returned. -/
structure RunTrace where
  result : Except RunErr String
  logs : List LogEvent
  killed : List Nat
  deriving DecidableEq, Repr

/-- Shallow embedding of run_process_no_console_and_wait (util.rs lines 230 to 276): spawn
with the no-console configuration (propagating spawn failure), grant foreground permission
(result ignored), then either wait bounded by the given timeout, killing the child and
returning the timeout error on expiry (a failing kill propagates its own error instead, per
the question-mark operator on the kill call), or wait indefinitely; in both exit cases
delegate to check_process_status_and_output. -/
def run_process_no_console_and_wait (api : ProcApi) (exe : String) (args : List String)
    (workDir : String) (timeout : Option Nat) : RunTrace :=
  match api.spawn (run_process_no_console_cfg exe args workDir) with
  | .error e => ⟨.error (.os e), [], []⟩
  | .ok child =>
    match timeout with
    | some t =>
      match api.waitTimeout child t with
      | .ok (some status) =>
        let r := check_process_status_and_output api child status
        ⟨r.1, r.2, []⟩
      | .ok none =>
        match api.kill child with
        | .ok _ => ⟨.error (.timedOut t), [], [child]⟩
        | .error e => ⟨.error (.os e), [], []⟩
      | .error e => ⟨.error (.os e), [], []⟩
    | none =>
      match api.wait child with
      | .ok status =>
        let r := check_process_status_and_output api child status
        ⟨r.1, r.2, []⟩
      | .error e => ⟨.error (.os e), [], []⟩

/-- Shallow embedding of run_process (util.rs lines 278 to 286): spawn with the plain
configuration, grant the child foreground permission with the result ignored (the second
component records the children granted), and return unit without waiting. -/
def run_process (api : ProcApi) (exe : String) (args : List String) (workDir : String) :
    Except OsErr Unit × List Nat :=
  match api.spawn (run_process_cfg exe args workDir) with
  | .error e => (.error e, [])
  | .ok child => (.ok (), [child])

/-- Shallow embedding of run_process_raw_args (util.rs lines 288 to 296): as run_process but
with the raw argument string configuration. -/
def run_process_raw_args (api : ProcApi) (exe : String) (args : String) (workDir : String) :
    Except OsErr Unit × List Nat :=
  match api.spawn (run_process_raw_cfg exe args workDir) with
  | .error e => (.error e, [])
  | .ok child => (.ok (), [child])

/-- The manifest collaborator exactly as run_hook consumes it: the version string and the two
path-resolution functions applied to the root path. -/
structure Manifest where
  version : String
  getCurrentPath : String → String
  getMainExePath : String → String

/-- Observable events of run_hook, in emission order: the initial info line, the outcome line
(a warning carrying the swallowed runner error, or the success line), and the final
best-effort force-stop attempt together with the result that attempt produced (recorded and
discarded, never propagated). -/
inductive HookEvent where
  | infoRunningHook (name : String)
  | warnHookFailed (name : String) (e : RunErr)
  | infoHookSucceeded
  | forceStopAttempted (root : String) (r : Except OsErr Unit)
  deriving DecidableEq, Repr

/-- Shallow embedding of run_hook (util.rs lines 23 to 37).  shared::force_stop_package is
repository code outside the given source file and is embedded as the forceStop oracle.  The
function returns only its event trace, mirroring the unit return type of the source: there is
no error channel.  The timeout handed down is Duration::from_secs of timeoutSecs. -/
def run_hook (api : ProcApi) (forceStop : String → Except OsErr Unit) (app : Manifest)
    (rootPath : String) (hookName : String) (timeoutSecs : Nat) : List HookEvent :=
  let current_path := app.getCurrentPath rootPath
  let main_exe_path := app.getMainExePath rootPath
  let ver_string := app.version
  let r := run_process_no_console_and_wait api main_exe_path [hookName, ver_string] current_path
    (some timeoutSecs)
  [HookEvent.infoRunningHook hookName]
    ++ (match r.result with
        | .error e => [HookEvent.warnHookFailed hookName e]
        | .ok _ => [HookEvent.infoHookSucceeded])
    ++ [HookEvent.forceStopAttempted rootPath (forceStop rootPath)]

/-- C2 (evaluation at the failing input): when CreateMutexW succeeds with handle 7 but
GetLastError reports ERROR_ALREADY_EXISTS, create_global_mutex does return the already-running
error and constructs no guard, but the just-created handle 7 is not closed before returning:
the list of handles the call closes is empty, whereas the claim (and the resource rule of the
specification that every handle is released on every exit path) requires handle 7 to be closed
immediately. -/
theorem c2_already_exists_leaves_handle_open :
    create_global_mutex ⟨.ok 7, .alreadyExists⟩ = (.error .alreadyRunning, [])
    ∧ 7 ∉ (create_global_mutex ⟨.ok 7, .alreadyExists⟩).2 := by
  decide

/-- A probe process API that fails to spawn exactly when the configuration carries the
console-suppression flag, and spawns child 7 otherwise. -/
def noWindowProbe : ProcApi :=
  { spawn := fun cfg => if cfg.creationFlags == CREATE_NO_WINDOW then .error ⟨1⟩ else .ok 7,
    waitTimeout := fun _ _ => .ok (some ⟨0⟩),
    wait := fun _ => .ok ⟨0⟩,
    kill := fun _ => .ok (),
    readStdout := fun _ => .ok [],
    readStderr := fun _ => .ok [] }

/-- C5 counterexample: the claim states that run_process (fire-and-forget) and
run_process_raw_args spawn with the same console-suppression creation flag as
run_process_no_console_and_wait.  At these concrete inputs both pass creation flags 0, not
CREATE_NO_WINDOW: under the probe API that rejects suppressed spawns, both succeed while the
waiting runner is rejected, and the three builder configurations show the flags directly. -/
theorem c5_counterexample :
    (run_process_cfg "hook.exe" ["a"] "c:\\app").creationFlags = 0
    ∧ (run_process_raw_cfg "hook.exe" "a b" "c:\\app").creationFlags = 0
    ∧ (run_process_no_console_cfg "hook.exe" ["a"] "c:\\app").creationFlags = CREATE_NO_WINDOW
    ∧ CREATE_NO_WINDOW ≠ 0
    ∧ run_process noWindowProbe "hook.exe" ["a"] "c:\\app" = (.ok (), [7])
    ∧ run_process_raw_args noWindowProbe "hook.exe" "a b" "c:\\app" = (.ok (), [7])
    ∧ (run_process_no_console_and_wait noWindowProbe "hook.exe" ["a"] "c:\\app" none).result
        = .error (.os ⟨1⟩) := by
  refine ⟨rfl, rfl, rfl, by decide, rfl, rfl, rfl⟩

/-- C5 amended: run_process and run_process_raw_args spawn the child with creation flags 0,
i.e. without the console-suppression flag that run_process_no_console_and_wait applies; both
grant the child foreground permission and return unit as soon as spawning succeeds. -/
theorem c5_amended_no_console_flag (api : ProcApi) (exe wd : String) (args : List String)
    (raw : String) (child child2 : Nat)
    (h1 : api.spawn (run_process_cfg exe args wd) = .ok child)
    (h2 : api.spawn (run_process_raw_cfg exe raw wd) = .ok child2) :
    run_process api exe args wd = (.ok (), [child])
    ∧ run_process_raw_args api exe raw wd = (.ok (), [child2])
    ∧ (run_process_cfg exe args wd).creationFlags = 0
    ∧ (run_process_raw_cfg exe raw wd).creationFlags = 0
    ∧ (run_process_no_console_cfg exe args wd).creationFlags = CREATE_NO_WINDOW := by
  refine ⟨?_, ?_, rfl, rfl, rfl⟩
  · simp [run_process, h1]
  · simp [run_process_raw_args, h2]

/-- A process API on which every call succeeds, spawning child 3. -/
def alwaysOk3 : ProcApi :=
  { spawn := fun _ => .ok 3,
    waitTimeout := fun _ _ => .ok (some ⟨0⟩),
    wait := fun _ => .ok ⟨0⟩,
    kill := fun _ => .ok (),
    readStdout := fun _ => .ok [],
    readStderr := fun _ => .ok [] }

/-- Witness for the amended C5 at a concrete API and concrete arguments. -/
theorem c5_amended_no_console_flag_witness :
    run_process alwaysOk3 "a.exe" [] "c:\\w" = (.ok (), [3])
    ∧ run_process_raw_args alwaysOk3 "a.exe" "x" "c:\\w" = (.ok (), [3])
    ∧ (run_process_cfg "a.exe" [] "c:\\w").creationFlags = 0
    ∧ (run_process_raw_cfg "a.exe" "x" "c:\\w").creationFlags = 0
    ∧ (run_process_no_console_cfg "a.exe" [] "c:\\w").creationFlags = CREATE_NO_WINDOW :=
  c5_amended_no_console_flag alwaysOk3 "a.exe" "c:\\w" [] "x" 3 3 rfl rfl

/-- A process API on which the child spawns as 4, never exits within any timeout, and the
kill call fails with OS error 5. -/
def killFailApi : ProcApi :=
  { spawn := fun _ => .ok 4,
    waitTimeout := fun _ _ => .ok none,
    wait := fun _ => .ok ⟨0⟩,
    kill := fun _ => .error ⟨5⟩,
    readStdout := fun _ => .ok [],
    readStderr := fun _ => .ok [] }

/-- C6 counterexample: the claim states that on the timeout path the child is always killed
and the returned error is always the timeout error.  At this concrete input the child does not
exit within the timeout of 9 and the kill call fails with OS error 5; the function then
returns that OS error, not the timeout error, and no kill succeeded. -/
theorem c6_counterexample :
    run_process_no_console_and_wait killFailApi "x.exe" [] "c:\\w" (some 9)
      = ⟨.error (.os ⟨5⟩), [], []⟩
    ∧ RunErr.os ⟨5⟩ ≠ RunErr.timedOut 9 := by
  decide

/-- C6 amended: when the child does not exit within the timeout, the kill is attempted; if the
kill succeeds the function returns the timeout error carrying the timeout duration and the
child was killed before returning, and if the kill itself fails that OS error is returned
instead. -/
theorem c6_amended_timeout_kill (api : ProcApi) (exe wd : String) (args : List String)
    (t child : Nat)
    (hspawn : api.spawn (run_process_no_console_cfg exe args wd) = .ok child)
    (hwait : api.waitTimeout child t = .ok none) :
    (∀ u, api.kill child = .ok u →
      run_process_no_console_and_wait api exe args wd (some t) = ⟨.error (.timedOut t), [], [child]⟩)
    ∧ (∀ e, api.kill child = .error e →
      run_process_no_console_and_wait api exe args wd (some t) = ⟨.error (.os e), [], []⟩) := by
  constructor
  · intro u hk
    simp [run_process_no_console_and_wait, hspawn, hwait, hk]
  · intro e hk
    simp [run_process_no_console_and_wait, hspawn, hwait, hk]

/-- A process API identical to killFailApi except that the kill call succeeds. -/
def timeoutKillOkApi : ProcApi :=
  { spawn := fun _ => .ok 4,
    waitTimeout := fun _ _ => .ok none,
    wait := fun _ => .ok ⟨0⟩,
    kill := fun _ => .ok (),
    readStdout := fun _ => .ok [],
    readStderr := fun _ => .ok [] }

/-- Witness for the amended C6: on a host where the kill succeeds, the timeout of 9 yields the
timeout error and the killed child. -/
theorem c6_amended_timeout_kill_witness :
    run_process_no_console_and_wait timeoutKillOkApi "x.exe" [] "c:\\w" (some 9)
      = ⟨.error (.timedOut 9), [], [4]⟩ :=
  (c6_amended_timeout_kill timeoutKillOkApi "x.exe" "c:\\w" [] 9 4 rfl rfl).1 () rfl

/-- A process API whose child 1 exits with code 3 after writing the bytes of the word hello
to stdout and nothing to stderr. -/
def outHelloApi : ProcApi :=
  { spawn := fun _ => .ok 1,
    waitTimeout := fun _ _ => .ok (some ⟨3⟩),
    wait := fun _ => .ok ⟨3⟩,
    kill := fun _ => .ok (),
    readStdout := fun _ => .ok [104, 101, 108, 108, 111],
    readStderr := fun _ => .ok [] }

/-- As outHelloApi but the child writes the bytes of the word world to stdout. -/
def outWorldApi : ProcApi :=
  { spawn := fun _ => .ok 1,
    waitTimeout := fun _ _ => .ok (some ⟨3⟩),
    wait := fun _ => .ok ⟨3⟩,
    kill := fun _ => .ok (),
    readStdout := fun _ => .ok [119, 111, 114, 108, 100],
    readStderr := fun _ => .ok [] }

/-- C7 counterexample: the claim states that the error returned on a non-zero exit carries
both the exit code and the captured output.  Two runs whose captured outputs differ (hello
versus world) return the very same error value, and the message the source formats into that
error mentions only the code; hence the error carries no captured output. -/
theorem c7_counterexample :
    (check_process_status_and_output outHelloApi 1 ⟨3⟩).1 = .error (.nonZeroExit 3)
    ∧ (check_process_status_and_output outWorldApi 1 ⟨3⟩).1 = .error (.nonZeroExit 3)
    ∧ utf8Lossy [104, 101, 108, 108, 111] ≠ utf8Lossy [119, 111, 114, 108, 100]
    ∧ errMessage (.nonZeroExit 3) = "Process exited with non-zero exit code: 3" := by
  refine ⟨rfl, rfl, by decide, rfl⟩

/-- C7 amended: on a non-zero exit the returned error is the non-zero-exit error carrying the
exit code; the captured output, which is the stdout bytes followed by the stderr bytes decoded
permissively by the total lossy decoder, is emitted to the warn log when non-empty rather than
attached to the error. -/
theorem c7_amended_nonzero_exit (api : ProcApi) (child : Nat) (status : ExitStatus)
    (outBytes errBytes : List Nat)
    (h1 : api.readStdout child = .ok outBytes)
    (h2 : api.readStderr child = .ok errBytes)
    (h3 : status.exitCode ≠ 0) :
    (check_process_status_and_output api child status).1 = .error (.nonZeroExit status.exitCode)
    ∧ (check_process_status_and_output api child status).2
        = [LogEvent.warnNonZero status.exitCode]
          ++ (if (outBytes ++ errBytes).length > 0
              then [LogEvent.warnOutput (utf8Lossy (outBytes ++ errBytes))] else []) := by
  constructor <;> simp [check_process_status_and_output, h1, h2, h3]

/-- A process API whose child 1 exits with code 3 after writing an ill-formed byte sequence:
stdout holds the byte of the letter h followed by the invalid byte 255, stderr the byte of the
letter i. -/
def nonZeroOutApi : ProcApi :=
  { spawn := fun _ => .ok 1,
    waitTimeout := fun _ _ => .ok (some ⟨3⟩),
    wait := fun _ => .ok ⟨3⟩,
    kill := fun _ => .ok (),
    readStdout := fun _ => .ok [104, 255],
    readStderr := fun _ => .ok [105] }

/-- Witness for the amended C7: exit code 3 with an invalid byte in the captured stream yields
the code-only error and a warn log holding the decoded output, stdout before stderr, with the
invalid byte replaced. -/
theorem c7_amended_nonzero_exit_witness :
    (check_process_status_and_output nonZeroOutApi 1 ⟨3⟩).1 = .error (.nonZeroExit 3)
    ∧ (check_process_status_and_output nonZeroOutApi 1 ⟨3⟩).2
        = [LogEvent.warnNonZero 3, LogEvent.warnOutput (utf8Lossy [104, 255, 105])] := by
  have h := c7_amended_nonzero_exit nonZeroOutApi 1 ⟨3⟩ [104, 255] [105] rfl rfl (by decide)
  exact ⟨h.1, by simpa using h.2⟩

/-- C8: run_hook returns only its event trace (it has no error channel, so no internal failure
reaches the caller), and for every process API, every force-stop behaviour and every manifest,
the last event is always the force-stop attempt on the root path, whose own result is recorded
and discarded; the hook attempt outcome is logged as a warning carrying the swallowed error or
as the success line. -/
theorem c8_hook_swallows_and_cleans (api : ProcApi) (forceStop : String → Except OsErr Unit)
    (app : Manifest) (root hook : String) (t : Nat) :
    (run_hook api forceStop app root hook t).getLast?
      = some (HookEvent.forceStopAttempted root (forceStop root))
    ∧ (∀ e, (run_process_no_console_and_wait api (app.getMainExePath root) [hook, app.version]
          (app.getCurrentPath root) (some t)).result = .error e →
        run_hook api forceStop app root hook t
          = [HookEvent.infoRunningHook hook, HookEvent.warnHookFailed hook e,
             HookEvent.forceStopAttempted root (forceStop root)])
    ∧ (∀ s, (run_process_no_console_and_wait api (app.getMainExePath root) [hook, app.version]
          (app.getCurrentPath root) (some t)).result = .ok s →
        run_hook api forceStop app root hook t
          = [HookEvent.infoRunningHook hook, HookEvent.infoHookSucceeded,
             HookEvent.forceStopAttempted root (forceStop root)]) := by
  have key : run_hook api forceStop app root hook t
      = [HookEvent.infoRunningHook hook]
        ++ (match (run_process_no_console_and_wait api (app.getMainExePath root)
              [hook, app.version] (app.getCurrentPath root) (some t)).result with
            | .error e => [HookEvent.warnHookFailed hook e]
            | .ok _ => [HookEvent.infoHookSucceeded])
        ++ [HookEvent.forceStopAttempted root (forceStop root)] := rfl
  refine ⟨?_, ?_, ?_⟩
  · rw [key]
    rcases h : (run_process_no_console_and_wait api (app.getMainExePath root) [hook, app.version]
      (app.getCurrentPath root) (some t)).result with e | s <;> simp [h]
  · intro e he
    rw [key, he]
    rfl
  · intro s hs
    rw [key, hs]
    rfl

/-- Witness for C8 at a concrete instance where both the hook and the cleanup fail: the child
never exits, the kill fails with OS error 5, force-stop fails with OS error 9; the trace still
ends with the cleanup attempt and the runner error is merely logged. -/
theorem c8_hook_swallows_and_cleans_witness :
    (run_hook killFailApi (fun _ => Except.error ⟨9⟩) ⟨"1.0.0", fun r => r, fun r => r⟩
        "c:\\pkg" "after-install" 15).getLast?
      = some (HookEvent.forceStopAttempted "c:\\pkg" (Except.error ⟨9⟩))
    ∧ run_hook killFailApi (fun _ => Except.error ⟨9⟩) ⟨"1.0.0", fun r => r, fun r => r⟩
        "c:\\pkg" "after-install" 15
      = [HookEvent.infoRunningHook "after-install",
         HookEvent.warnHookFailed "after-install" (RunErr.os ⟨5⟩),
         HookEvent.forceStopAttempted "c:\\pkg" (Except.error ⟨9⟩)] := by
  have h := c8_hook_swallows_and_cleans killFailApi (fun _ => Except.error ⟨9⟩)
    ⟨"1.0.0", fun r => r, fun r => r⟩ "c:\\pkg" "after-install" 15
  exact ⟨h.1, h.2.1 (RunErr.os ⟨5⟩) rfl⟩

/-- Path strings are handled as their character sequences; byte-level operations of the
source (str::len, str::starts_with) are modelled through the UTF-8 sizes of the characters,
which agrees with the byte view on well-formed strings. -/
abbrev PathStr := List Char

/-- Model of the char-wise lowercasing the source applies to path strings (to_lowercase; the
model folds characterwise, which agrees on the ASCII range paths are compared in). -/
def lowerStr (s : PathStr) : PathStr := s.map Char.toLower

/-- Model of str::trim_end_matches with a single-character pattern: removes every trailing
occurrence of c. -/
def trimEndMatches (s : PathStr) (c : Char) : PathStr :=
  (s.reverse.dropWhile (fun x => x == c)).reverse

/-- UTF-8 byte length of a character sequence (str::len counts bytes). -/
def utf8Len (s : PathStr) : Nat := (s.map (fun c => c.utf8Size)).sum

/-- The parent normalization of is_sub_path: strip all trailing backslashes, then all
trailing forward slashes, then append exactly one backslash. -/
def normParent (parent : PathStr) : PathStr :=
  trimEndMatches (trimEndMatches parent '\\') '/' ++ ['\\']

/-- An environment for variable expansion: names (lowercase, since the inputs that reach
expansion are already case folded) with their values. -/
abbrev Env := List (PathStr × PathStr)

/-- Scans for the closing percent sign of a variable reference: the name before it and the
remainder after it, or none when the reference is unterminated. -/
def findClose : PathStr → Option (PathStr × PathStr)
  | [] => none
  | c :: rest =>
    if c == '%' then some ([], rest)
    else
      match findClose rest with
      | none => none
      | some (n, r) => some (c :: n, r)

/-- Fuel-indexed worker modelling the substitution behaviour of ExpandEnvironmentStrings:
each percent-delimited name bound in the environment is replaced by its value; an unbound or
unterminated reference is kept literally.  Each step consumes at least one input character,
so fuel equal to the input length suffices; the fuel keeps the recursion structural. -/
def expandEnvAux (env : Env) : Nat → PathStr → PathStr
  | 0, l => l
  | _, [] => []
  | fuel + 1, c :: rest =>
    if c == '%' then
      match findClose rest with
      | none => c :: rest
      | some (name, r2) =>
        match List.lookup name env with
        | some v => v ++ expandEnvAux env fuel r2
        | none => c :: (name ++ '%' :: expandEnvAux env fuel r2)
    else c :: expandEnvAux env fuel rest

/-- Model of w::ExpandEnvironmentStrings (its documented substitution behaviour). -/
def expandEnv (env : Env) (s : PathStr) : PathStr := expandEnvAux env s.length s

/-- Model of Path::is_absolute on Windows: a drive letter, a colon and a separator, or a UNC
path opening with two separators.  Drive-relative paths and paths with only a leading
separator (root but no prefix) are not absolute. -/
def isAbsolute (s : PathStr) : Bool :=
  match s with
  | a :: b :: c :: _ =>
    (a.isAlpha && b == ':' && (c == '\\' || c == '/'))
      || ((a == '\\' || a == '/') && (b == '\\' || b == '/'))
  | _ => false

/-- Splits at either separator, accumulating the current piece in reverse. -/
def pathComponentsAux : PathStr → PathStr → List PathStr
  | cur, [] => [cur.reverse]
  | cur, c :: rest =>
    if c == '\\' || c == '/' then cur.reverse :: pathComponentsAux [] rest
    else pathComponentsAux (c :: cur) rest

/-- The component sequence of a path string: split at either separator, empty pieces
discarded.  Applied to canonicalized drive paths this matches the component view of
std Path (with the drive piece standing for its prefix and root), which is what
PathBuf::starts_with compares. -/
def pathComponents (s : PathStr) : List PathStr :=
  (pathComponentsAux [] s).filter (fun c => !c.isEmpty)

/-- Joins components with single backslashes. -/
def joinBackslash : List PathStr → PathStr
  | [] => []
  | [c] => c
  | c :: rest => c ++ '\\' :: joinBackslash rest

/-- Resolves single-dot and double-dot components lexically against a stack. -/
def resolveComponents (comps : List PathStr) : List PathStr :=
  comps.foldl
    (fun acc c =>
      if c == ['.'] then acc
      else if c == ['.', '.'] then acc.dropLast
      else acc ++ [c])
    []

/-- Model of GetFullPathNameW as invoked through normalize_virtually, on drive-absolute
paths: keep the drive, split the remainder at either separator, resolve dot and double-dot
components lexically, and join with single backslashes; a purely textual normalization that
never consults the disk.  Other inputs are returned unchanged; the source reaches this call
only after its absoluteness check. -/
def getFullPathName (s : PathStr) : PathStr :=
  match s with
  | a :: b :: c :: rest =>
    if a.isAlpha && b == ':' && (c == '\\' || c == '/') then
      [a, b, '\\']
        ++ joinBackslash (resolveComponents ((pathComponentsAux [] rest).filter (fun x => !x.isEmpty)))
    else s
  | _ => s

/-- The part of is_sub_path after a failed fast path (util.rs lines 82 to 104): expand both
strings, return false when either expansion is not absolute, canonicalize both, case fold
again and compare the component sequences; every oracle failure propagates. -/
def is_sub_path_slow (expand normalize : PathStr → Except OsErr PathStr)
    (path parent : PathStr) : Except OsErr Bool :=
  match expand path with
  | .error e => .error e
  | .ok path =>
    match expand parent with
    | .error e => .error e
    | .ok parent =>
      if !(isAbsolute path) || !(isAbsolute parent) then .ok false
      else
        match normalize path with
        | .error e => .error e
        | .ok path =>
          match normalize parent with
          | .error e => .error e
          | .ok parent =>
            .ok ((pathComponents (lowerStr parent)).isPrefixOf (pathComponents (lowerStr path)))

/-- Shallow embedding of is_sub_path (util.rs lines 64 to 105), with the two OS facilities
it consumes (ExpandEnvironmentStrings and normalize_virtually) as oracle parameters.  In
source order: case fold both inputs; normalize the parent to end in exactly one trailing
backslash; return false on an empty path or parent; return false when the path is
byte-shorter than the parent; fast path true when the path string starts with the parent
string; otherwise continue with the expansion and canonicalization comparison. -/
def is_sub_path (expand normalize : PathStr → Except OsErr PathStr)
    (path parent : PathStr) : Except OsErr Bool :=
  let path := lowerStr path
  let parent := lowerStr parent
  let parent := normParent parent
  if path.isEmpty || parent.isEmpty then .ok false
  else if utf8Len path < utf8Len parent then .ok false
  else if parent.isPrefixOf path then .ok true
  else is_sub_path_slow expand normalize path parent

/-- The pure model of the expansion oracle: never fails, substitutes from env. -/
def expandModel (env : Env) : PathStr → Except OsErr PathStr :=
  fun s => .ok (expandEnv env s)

/-- The pure model of the canonicalization oracle: never fails, normalizes lexically. -/
def normalizeModel : PathStr → Except OsErr PathStr :=
  fun s => .ok (getFullPathName s)

/-- The canonicalized, case-folded component sequence of a path as the claim words it:
expansion, canonicalization, case folding, component split (inputs reach expansion already
case folded, as in the source). -/
def canonComps (env : Env) (s : PathStr) : List PathStr :=
  pathComponents (lowerStr (getFullPathName (expandEnv env (lowerStr s))))

/-- The amended containment decision of C1, written from the amended claim: true exactly
when the case-folded path is non-empty and at least as byte-long as the case-folded,
trailing-separator-normalized parent, and either the raw fast-path string-prefix check
succeeds, or both expanded strings are absolute and the canonicalized case-folded component
sequence of the normalized parent is a prefix of that of the path. -/
def spec_sub_path_amended (env : Env) (path parent : PathStr) : Bool :=
  let pl := lowerStr path
  let ql := normParent (lowerStr parent)
  !pl.isEmpty && !(decide (utf8Len pl < utf8Len ql))
    && (ql.isPrefixOf pl
        || (isAbsolute (expandEnv env pl) && isAbsolute (expandEnv env ql)
            && (pathComponents (lowerStr (getFullPathName (expandEnv env ql)))).isPrefixOf
                 (pathComponents (lowerStr (getFullPathName (expandEnv env pl))))))

theorem isEmpty_append_single (l : List Char) (c : Char) : (l ++ [c]).isEmpty = false := by
  cases l <;> rfl

theorem normParent_isEmpty (l : PathStr) : (normParent l).isEmpty = false := by
  unfold normParent
  exact isEmpty_append_single _ _

theorem normParent_nil : normParent (lowerStr []) = ['\\'] := rfl

theorem expandEnv_backslash (env : Env) : expandEnv env ['\\'] = ['\\'] := rfl

theorem isAbsolute_backslash : isAbsolute ['\\'] = false := rfl

theorem one_le_utf8Len_cons (c : Char) (tl : PathStr) : 1 ≤ utf8Len (c :: tl) := by
  have hc := Char.utf8Size_pos c
  simp [utf8Len]
  omega

/-- On the pure oracle models, the slow branch computes the absoluteness guard and the
canonical component comparison. -/
theorem is_sub_path_slow_model (env : Env) (pl ql : PathStr) :
    is_sub_path_slow (expandModel env) normalizeModel pl ql
      = .ok (isAbsolute (expandEnv env pl) && isAbsolute (expandEnv env ql)
          && (pathComponents (lowerStr (getFullPathName (expandEnv env ql)))).isPrefixOf
               (pathComponents (lowerStr (getFullPathName (expandEnv env pl))))) := by
  simp only [is_sub_path_slow, expandModel, normalizeModel]
  by_cases h4 : isAbsolute (expandEnv env pl) <;> by_cases h5 : isAbsolute (expandEnv env ql) <;>
    simp [h4, h5]

/-- On the pure oracle models, is_sub_path computes exactly the amended containment
decision. -/
theorem is_sub_path_model_eq (env : Env) (path parent : PathStr) :
    is_sub_path (expandModel env) normalizeModel path parent
      = .ok (spec_sub_path_amended env path parent) := by
  simp only [is_sub_path, spec_sub_path_amended, normParent_isEmpty, Bool.or_false]
  by_cases h1 : (lowerStr path).isEmpty
  · simp [h1]
  · by_cases h2 : utf8Len (lowerStr path) < utf8Len (normParent (lowerStr parent))
    · simp [h1, h2]
    · by_cases h3 : (normParent (lowerStr parent)).isPrefixOf (lowerStr path)
      · simp [h1, h2, h3]
      · simp [h1, h2, h3, is_sub_path_slow_model env (lowerStr path) (normParent (lowerStr parent))]

/-- C1 counterexample: at the absolute path P given by c, colon, backslash, b, backslash,
double dot, backslash, x and the non-empty parent Q given by c, colon, backslash, b, the
function returns true through the raw-string fast path, while the canonicalized case-folded
component sequence of Q is not a prefix of that of P, because the double-dot component sends
the canonical form of P back out of Q.  The equivalence stated by the claim therefore fails
at this input. -/
theorem c1_counterexample :
    is_sub_path (expandModel []) normalizeModel ("c:\\b\\..\\x".data) ("c:\\b".data) = .ok true
    ∧ (canonComps [] ("c:\\b".data)).isPrefixOf (canonComps [] ("c:\\b\\..\\x".data)) = false
    ∧ isAbsolute ("c:\\b\\..\\x".data) = true
    ∧ ("c:\\b".data).isEmpty = false := by
  decide

/-- C1 amended: for every environment and every pair of inputs, is_sub_path over the pure
oracle models returns true exactly when the case-folded path is non-empty and at least as
byte-long as the case-folded trailing-separator-normalized parent, and either the raw
fast-path string-prefix check succeeds or both expanded strings are absolute and the
canonicalized case-folded component sequence of the parent is a prefix of that of the path
(the fast-path disjunct is the part the original claim omitted). -/
theorem c1_amended_fast_path_or_components (env : Env) (path parent : PathStr) :
    is_sub_path (expandModel env) normalizeModel path parent
      = .ok (spec_sub_path_amended env path parent) :=
  is_sub_path_model_eq env path parent

/-- C9 counterexample: with an empty parent the function returns true for a path opening
with a backslash (the normalized empty parent is a single backslash and the fast path fires),
and with the relative inputs abc backslash x against abc it also returns true through the
fast path although neither expanded input is absolute; the claim requires false in both
situations. -/
theorem c9_counterexample :
    is_sub_path (expandModel []) normalizeModel ("\\x".data) [] = .ok true
    ∧ is_sub_path (expandModel []) normalizeModel ("abc\\x".data) ("abc".data) = .ok true
    ∧ isAbsolute (expandEnv [] (lowerStr ("abc\\x".data))) = false
    ∧ isAbsolute (expandEnv [] (lowerStr ("\\x".data))) = false := by
  decide

/-- C9 amended: an empty path yields false for arbitrary oracles; an empty parent normalizes
to a single backslash, so the result is true exactly when the case-folded path opens with a
backslash (not always false, as claimed); when the fast path fails and either expanded input
is not absolute the result is false; and on oracles that never fail the function never
fails, so expansion and canonicalization failures are the only error sources. -/
theorem c9_amended_bails_and_errors :
    (∀ (expand normalize : PathStr → Except OsErr PathStr) (q : PathStr),
        is_sub_path expand normalize [] q = .ok false)
    ∧ (∀ (env : Env) (p : PathStr),
        is_sub_path (expandModel env) normalizeModel p [] = .ok (['\\'].isPrefixOf (lowerStr p)))
    ∧ (∀ (env : Env) (p q : PathStr),
        (normParent (lowerStr q)).isPrefixOf (lowerStr p) = false →
        (isAbsolute (expandEnv env (lowerStr p)) = false
          ∨ isAbsolute (expandEnv env (normParent (lowerStr q))) = false) →
        is_sub_path (expandModel env) normalizeModel p q = .ok false)
    ∧ (∀ (env : Env) (p q : PathStr), ∃ b,
        is_sub_path (expandModel env) normalizeModel p q = .ok b) := by
  refine ⟨fun expand normalize q => rfl, ?_, ?_, ?_⟩
  · intro env p
    rw [is_sub_path_model_eq]
    congr 1
    simp only [spec_sub_path_amended, normParent_nil]
    cases hp : lowerStr p with
    | nil => simp
    | cons c tl =>
      have h2 : ¬ (utf8Len (c :: tl) < utf8Len ['\\']) := by
        have h1 := one_le_utf8Len_cons c tl
        have hq : utf8Len ['\\'] = 1 := by decide
        rw [hq]
        omega
      simp [h2, expandEnv_backslash, isAbsolute_backslash]
  · intro env p q h3 habs
    rw [is_sub_path_model_eq]
    congr 1
    simp only [spec_sub_path_amended]
    rcases habs with h | h <;> simp [h3, h]
  · intro env p q
    exact ⟨_, is_sub_path_model_eq env p q⟩

/-- Witness for the amended C9: the empty path yields false, and a drive-relative path
(c colon x, no separator) against an absolute parent fails the fast path, is not absolute
after expansion, and yields false. -/
theorem c9_amended_bails_and_errors_witness :
    is_sub_path (expandModel []) normalizeModel [] ("d:\\a".data) = .ok false
    ∧ is_sub_path (expandModel []) normalizeModel ("c:x".data) ("d:\\a".data) = .ok false := by
  refine ⟨c9_amended_bails_and_errors.1 (expandModel []) normalizeModel ("d:\\a".data),
    c9_amended_bails_and_errors.2.2.1 [] ("c:x".data) ("d:\\a".data) ?_ (Or.inl ?_)⟩ <;> decide

end Velopack
